import Mathlib

/-!
Verification of the recidivism risk-scoring and crime-timeline-forecasting core.

The program keeps two copies of the same scoring logic:
* `src/utils/risk_calculator.py` (embedded below in namespace `Utils`), and
* `src/backend/app/services/risk_service.py`, which reads its constant tables
  from `src/backend/app/core/constants.py` (embedded in namespace `Backend`).

Modelling conventions:
* Python dict records become the structure `PersonData`; every field of the
  record carries the default the code supplies via `.get(key, default)`.
  `age_at_first_violation` defaults dynamically to `current_age`, hence `Option`.
* Python floats are modelled as exact rationals `ℚ` (all literals 0.25, 87.3, …
  are exact decimal fractions).
* Python `int(x)` truncates toward zero: `pyInt`.
* The wall-clock `date` field of a forecast entry is omitted from `Forecast`
  (it is `now + days`, pure presentation); all other fields are modelled.
-/

/-- Input record of `calculate_risk_score` / `forecast_crime_timeline`.
Counts are the non-negative integers of the documented input domain; the
flag fields are the 0/1 booleans the code tests with `== 1` / `== 0`. -/
structure PersonData where
  pattern_type : String
  total_cases : ℕ
  criminal_count : ℕ
  admin_count : ℕ
  days_since_last : ℕ
  recidivism_rate : ℚ
  current_age : ℤ
  age_at_first_violation : Option ℤ
  has_property : Bool
  has_job : Bool
  has_family : Bool
  substance_abuse : Bool
  has_escalation : Bool
  admin_to_criminal : ℕ
deriving DecidableEq

/-- The six weighted components returned by `calculate_risk_score`. -/
structure RiskComponents where
  pattern : ℚ
  history : ℚ
  time : ℚ
  age : ℚ
  social : ℚ
  escalation : ℚ
deriving DecidableEq

/-- Sum of the six component values (Python `sum(components.values())`). -/
def RiskComponents.total (c : RiskComponents) : ℚ :=
  c.pattern + c.history + c.time + c.age + c.social + c.escalation

/-- One entry of the forecast map, without the wall-clock `date` field. -/
structure Forecast where
  crime_type : String
  days : ℤ
  probability : ℚ
  ci_lower : ℤ
  ci_upper : ℤ
  confidence : String
  risk_level : String
deriving DecidableEq

/-- Python `dict.get(key, default)` over a literal table. -/
def lookupQ : List (String × ℚ) → String → ℚ → ℚ
  | [], _, dflt => dflt
  | (k, v) :: rest, key, dflt => if key = k then v else lookupQ rest key dflt

/-- Python builtin `min` on two rationals (kernel-reducible form). -/
def pyMinQ (a b : ℚ) : ℚ := if b < a then b else a

/-- Python builtin `max` on two rationals (kernel-reducible form). -/
def pyMaxQ (a b : ℚ) : ℚ := if a < b then b else a

/-- Python builtin `min` on two integers (kernel-reducible form). -/
def pyMinI (a b : ℤ) : ℤ := if b < a then b else a

/-- Python builtin `max` on two integers (kernel-reducible form). -/
def pyMaxI (a b : ℤ) : ℤ := if a < b then b else a

/-- Python `int()` applied to a float: truncation toward zero. -/
def pyInt (x : ℚ) : ℤ := if x < 0 then -(Rat.floor (-x)) else Rat.floor x

theorem pyMinQ_eq_min (a b : ℚ) : pyMinQ a b = min a b := by
  unfold pyMinQ
  rcases lt_or_ge b a with h | h
  · rw [if_pos h, min_eq_right h.le]
  · rw [if_neg (not_lt.mpr h), min_eq_left h]

theorem pyMaxQ_eq_max (a b : ℚ) : pyMaxQ a b = max a b := by
  unfold pyMaxQ
  rcases lt_or_ge a b with h | h
  · rw [if_pos h, max_eq_right h.le]
  · rw [if_neg (not_lt.mpr h), max_eq_left h]

theorem pyMinI_eq_min (a b : ℤ) : pyMinI a b = min a b := by
  unfold pyMinI
  rcases lt_or_ge b a with h | h
  · rw [if_pos h, min_eq_right h.le]
  · rw [if_neg (not_lt.mpr h), min_eq_left h]

theorem pyMaxI_eq_max (a b : ℤ) : pyMaxI a b = max a b := by
  unfold pyMaxI
  rcases lt_or_ge a b with h | h
  · rw [if_pos h, max_eq_right h.le]
  · rw [if_neg (not_lt.mpr h), max_eq_left h]

theorem ratFloor_eq_floor (q : ℚ) : Rat.floor q = ⌊q⌋ := rfl

/-- On non-negative arguments Python `int()` is the floor. -/
theorem pyInt_eq_floor {x : ℚ} (h : 0 ≤ x) : pyInt x = ⌊x⌋ := by
  unfold pyInt
  rw [if_neg (not_lt.mpr h), ratFloor_eq_floor]

/-- Comparison key used by `sorted(forecasts.items(), key=lambda x: x[1]['days'])`. -/
def forecastLE (a b : String × Forecast) : Prop := a.2.days ≤ b.2.days

instance : DecidableRel forecastLE := fun a b => Int.decLe a.2.days b.2.days

instance : IsTotal (String × Forecast) forecastLE :=
  ⟨fun a b => le_total a.2.days b.2.days⟩

instance : IsTrans (String × Forecast) forecastLE :=
  ⟨fun _ _ _ h1 h2 => le_trans h1 h2⟩

namespace Utils

/-- `RiskCalculator.pattern_risks` dict from `utils/risk_calculator.py`. -/
def pattern_risks : List (String × ℚ) :=
  [("mixed_unstable", 0.8), ("chronic_criminal", 0.9), ("escalating", 0.85),
   ("deescalating", 0.4), ("single", 0.3), ("unknown", 0.5)]

/-- `RiskCalculator._calculate_history_score` (utils copy). -/
def calculate_history_score (d : PersonData) : ℚ :=
  if d.total_cases = 0 then 0
  else
    let base : ℚ :=
      if d.total_cases ≤ 2 then 2
      else if d.total_cases ≤ 5 then 4
      else if d.total_cases ≤ 10 then 6
      else 8
    let withCrim : ℚ :=
      if 0 < d.criminal_count then
        base + (d.criminal_count : ℚ) / (d.total_cases : ℚ) * 2
      else base
    pyMinQ 10 withCrim

/-- `RiskCalculator._calculate_time_score` (utils copy). -/
def calculate_time_score (d : PersonData) : ℚ :=
  let t : ℚ :=
    if d.days_since_last < 30 then 10
    else if d.days_since_last < 90 then 8
    else if d.days_since_last < 180 then 6
    else if d.days_since_last < 365 then 4
    else 2
  if 2 < d.recidivism_rate then pyMinQ 10 (t + 2) else t

/-- `RiskCalculator._calculate_age_score` (utils copy). -/
def calculate_age_score (d : PersonData) : ℚ :=
  let age := d.current_age
  let ageAtFirst := d.age_at_first_violation.getD age
  let base : ℚ :=
    if 18 ≤ age ∧ age ≤ 25 then 8
    else if 26 ≤ age ∧ age ≤ 35 then 6
    else if 36 ≤ age ∧ age ≤ 45 then 4
    else 2
  let withDebut : ℚ :=
    if ageAtFirst < 18 then base + 3
    else if ageAtFirst < 21 then base + 2
    else if ageAtFirst < 25 then base + 1
    else base
  pyMinQ 10 withDebut

/-- `RiskCalculator._calculate_social_score` (utils copy): independent
`== 1` / `== 0` checks applied in source order, then clamp to [0,10]. -/
def calculate_social_score (d : PersonData) : ℚ :=
  let s : ℚ := 5
  let s := if d.has_property then s - 2 else s
  let s := if d.has_job then s - 2 else s
  let s := if d.has_family then s - 1 else s
  let s := if d.has_property then s else s + 1
  let s := if d.has_job then s else s + 1
  let s := if d.substance_abuse then s + 2 else s
  pyMaxQ 0 (pyMinQ 10 s)

/-- `RiskCalculator._calculate_escalation_score` (utils copy). -/
def calculate_escalation_score (d : PersonData) : ℚ :=
  if d.has_escalation then
    if 2 < d.admin_to_criminal then 9
    else if 0 < d.admin_to_criminal then 7
    else 5
  else
    if 5 < d.admin_count then 4
    else 2

/-- `RiskCalculator.calculate_risk_score` (utils copy): six weighted
components summed, clamped to [0,10]. -/
def calculate_risk_score (d : PersonData) : ℚ × RiskComponents :=
  let comps : RiskComponents :=
    { pattern := lookupQ pattern_risks d.pattern_type 0.5 * 10 * 0.25
      history := calculate_history_score d * 0.20
      time := calculate_time_score d * 0.15
      age := calculate_age_score d * 0.10
      social := calculate_social_score d * 0.15
      escalation := calculate_escalation_score d * 0.15 }
  (pyMaxQ 0 (pyMinQ 10 comps.total), comps)

/-- `RiskCalculator.get_risk_level` (utils copy). -/
def get_risk_level (risk_score : ℚ) : String × String :=
  if 7 ≤ risk_score then ("🔴 Критический", "Требует немедленного вмешательства")
  else if 5 ≤ risk_score then ("🟡 Высокий", "Усиленный контроль и мониторинг")
  else if 3 ≤ risk_score then ("🟠 Средний", "Стандартный контроль")
  else ("🟢 Низкий", "Минимальный контроль")

/-- `base_probabilities` dict inside `calculate_crime_probability` (utils copy). -/
def base_probabilities : List (String × ℚ) :=
  [("Кража", 87.3), ("Мошенничество", 82.3), ("Убийство", 97.0),
   ("Грабеж", 60.2), ("Разбой", 20.2), ("Вымогательство", 100.0),
   ("Изнасилование", 65.6), ("Хулиганство", 45.0)]

/-- `time_windows` dict inside `calculate_crime_probability` (utils copy). -/
def time_windows : List (String × ℚ) :=
  [("Мошенничество", 109), ("Кража", 146), ("Убийство", 143),
   ("Грабеж", 148), ("Разбой", 150), ("Изнасилование", 157),
   ("Вымогательство", 144), ("Хулиганство", 155)]

/-- `RiskCalculator.calculate_crime_probability` (utils copy). -/
def calculate_crime_probability (d : PersonData) (crime_type : String)
    (days_ahead : ℤ) : ℚ :=
  let base_prob := lookupQ base_probabilities crime_type 50.0
  let risk_score := (calculate_risk_score d).1
  let risk_modifier := risk_score / 10
  let expected_days := lookupQ time_windows crime_type 140
  let time_modifier : ℚ :=
    if (days_ahead : ℚ) < expected_days * 0.5 then 0.6
    else if (days_ahead : ℚ) < expected_days then 0.8
    else if (days_ahead : ℚ) < expected_days * 1.5 then 1.0
    else 0.7
  let pattern := d.pattern_type
  let pattern_modifier : ℚ :=
    if pattern = "chronic_criminal" ∧ (crime_type = "Кража" ∨ crime_type = "Грабеж") then 1.3
    else if pattern = "escalating" ∧ (crime_type = "Грабеж" ∨ crime_type = "Разбой") then 1.2
    else if pattern = "mixed_unstable" then 1.1
    else 1.0
  pyMaxQ 5 (pyMinQ 95 (base_prob * risk_modifier * time_modifier * pattern_modifier))

/-- `CrimeForecaster.base_windows` dict (utils copy), in source insertion order. -/
def base_windows : List (String × ℤ) :=
  [("Мошенничество", 109), ("Кража", 146), ("Убийство", 143),
   ("Вымогательство", 144), ("Грабеж", 148), ("Разбой", 150),
   ("Изнасилование", 157), ("Хулиганство", 155)]

/-- `CrimeForecaster._get_age_modifier` (utils copy). -/
def get_age_modifier (d : PersonData) : ℚ :=
  if d.current_age < 25 then 0.8
  else if d.current_age < 35 then 0.9
  else if d.current_age < 45 then 1.1
  else 1.3

/-- `CrimeForecaster._get_pattern_modifier` (utils copy). -/
def get_pattern_modifier (d : PersonData) (crime_type : String) : ℚ :=
  let pattern := d.pattern_type
  let base :=
    lookupQ [("mixed_unstable", 0.9), ("chronic_criminal", 0.7), ("escalating", 0.6),
             ("deescalating", 1.3), ("single", 1.5), ("unknown", 1.0)] pattern 1.0
  if pattern = "chronic_criminal" ∧ (crime_type = "Кража" ∨ crime_type = "Грабеж") then
    base * 0.9
  else if pattern = "escalating" ∧ (crime_type = "Разбой" ∨ crime_type = "Убийство") then
    base * 0.8
  else base

/-- `CrimeForecaster._get_social_modifier` (utils copy). -/
def get_social_modifier (d : PersonData) : ℚ :=
  let m : ℚ := 1.0
  let m := if d.has_property then m else m * 0.85
  let m := if d.has_job then m else m * 0.9
  let m := if d.substance_abuse then m * 0.8 else m
  m

/-- `CrimeForecaster._calculate_confidence` (utils copy). -/
def calculate_confidence (d : PersonData) : String :=
  let factors : ℕ :=
    (if 5 < d.total_cases then 1 else 0) +
    (if d.pattern_type ≠ "unknown" then 1 else 0) +
    (if d.has_escalation then 1 else 0)
  if 3 ≤ factors then "Высокая"
  else if 2 ≤ factors then "Средняя"
  else "Низкая"

/-- `CrimeForecaster._get_timeline_risk_level` (utils copy). -/
def get_timeline_risk_level (days : ℤ) : String :=
  if days < 60 then "🔴 Критический период"
  else if days < 120 then "🟡 Высокий риск"
  else if days < 180 then "🟠 Средний риск"
  else "🟢 Низкий риск"

/-- `CrimeForecaster._calculate_single_forecast` (utils copy); with typed
inputs the `try` body never raises, so the except-branch is dead code. -/
def calculate_single_forecast (d : PersonData) (crime_type : String)
    (base_days : ℤ) : Forecast :=
  let age_modifier := get_age_modifier d
  let pattern_modifier := get_pattern_modifier d crime_type
  let social_modifier := get_social_modifier d
  let forecast_days :=
    pyInt ((base_days : ℚ) * age_modifier * pattern_modifier * social_modifier)
  let forecast_days := pyMaxI 30 (pyMinI 365 forecast_days)
  let ci_lower := pyInt ((forecast_days : ℚ) * 0.7)
  let ci_upper := pyInt ((forecast_days : ℚ) * 1.4)
  let probability := calculate_crime_probability d crime_type forecast_days
  { crime_type := crime_type
    days := forecast_days
    probability := probability
    ci_lower := ci_lower
    ci_upper := ci_upper
    confidence := calculate_confidence d
    risk_level := get_timeline_risk_level forecast_days }

/-- `CrimeForecaster.forecast_crime_timeline` (utils copy): one entry per
`base_windows` item, then a stable sort ascending by the `days` field. -/
def forecast_crime_timeline (d : PersonData) : List (String × Forecast) :=
  let forecasts := base_windows.map fun p => (p.1, calculate_single_forecast d p.1 p.2)
  List.insertionSort forecastLE forecasts

end Utils

namespace Backend

/-- `PATTERN_RISKS` from `backend/app/core/constants.py`. -/
def PATTERN_RISKS : List (String × ℚ) :=
  [("mixed_unstable", 0.8), ("chronic_criminal", 0.9), ("escalating", 0.85),
   ("deescalating", 0.4), ("single", 0.3), ("unknown", 0.5)]

/-- `PREVENTION_RATES` from `backend/app/core/constants.py`. -/
def PREVENTION_RATES : List (String × ℚ) :=
  [("Мошенничество", 82.3), ("Кража", 87.3), ("Убийство", 97.0),
   ("Вымогательство", 100.0), ("Грабеж", 60.2), ("Разбой", 20.2),
   ("Изнасилование", 65.6), ("Хулиганство", 45.0)]

/-- `CRIME_TIME_WINDOWS` from `backend/app/core/constants.py`, as the ℚ-valued
lookup table used by `calculate_crime_probability`. -/
def CRIME_TIME_WINDOWS : List (String × ℚ) :=
  [("Мошенничество", 109), ("Кража", 146), ("Убийство", 143),
   ("Вымогательство", 144), ("Грабеж", 148), ("Разбой", 150),
   ("Изнасилование", 157), ("Хулиганство", 155)]

/-- `CRIME_TIME_WINDOWS` again, as the (key, base-days) items iterated by
`CrimeForecaster.forecast_crime_timeline` (`self.base_windows`). -/
def base_windows : List (String × ℤ) :=
  [("Мошенничество", 109), ("Кража", 146), ("Убийство", 143),
   ("Вымогательство", 144), ("Грабеж", 148), ("Разбой", 150),
   ("Изнасилование", 157), ("Хулиганство", 155)]

/-- `RiskCalculator._calculate_history_score` (backend copy). -/
def calculate_history_score (d : PersonData) : ℚ :=
  if d.total_cases = 0 then 0
  else
    let base : ℚ :=
      if d.total_cases ≤ 2 then 2
      else if d.total_cases ≤ 5 then 4
      else if d.total_cases ≤ 10 then 6
      else 8
    let withCrim : ℚ :=
      if 0 < d.criminal_count then
        base + (d.criminal_count : ℚ) / (d.total_cases : ℚ) * 2
      else base
    pyMinQ 10 withCrim

/-- `RiskCalculator._calculate_time_score` (backend copy). -/
def calculate_time_score (d : PersonData) : ℚ :=
  let t : ℚ :=
    if d.days_since_last < 30 then 10
    else if d.days_since_last < 90 then 8
    else if d.days_since_last < 180 then 6
    else if d.days_since_last < 365 then 4
    else 2
  if 2 < d.recidivism_rate then pyMinQ 10 (t + 2) else t

/-- `RiskCalculator._calculate_age_score` (backend copy). -/
def calculate_age_score (d : PersonData) : ℚ :=
  let age := d.current_age
  let ageAtFirst := d.age_at_first_violation.getD age
  let base : ℚ :=
    if 18 ≤ age ∧ age ≤ 25 then 8
    else if 26 ≤ age ∧ age ≤ 35 then 6
    else if 36 ≤ age ∧ age ≤ 45 then 4
    else 2
  let withDebut : ℚ :=
    if ageAtFirst < 18 then base + 3
    else if ageAtFirst < 21 then base + 2
    else if ageAtFirst < 25 then base + 1
    else base
  pyMinQ 10 withDebut

/-- `RiskCalculator._calculate_social_score` (backend copy). -/
def calculate_social_score (d : PersonData) : ℚ :=
  let s : ℚ := 5
  let s := if d.has_property then s - 2 else s
  let s := if d.has_job then s - 2 else s
  let s := if d.has_family then s - 1 else s
  let s := if d.has_property then s else s + 1
  let s := if d.has_job then s else s + 1
  let s := if d.substance_abuse then s + 2 else s
  pyMaxQ 0 (pyMinQ 10 s)

/-- `RiskCalculator._calculate_escalation_score` (backend copy). -/
def calculate_escalation_score (d : PersonData) : ℚ :=
  if d.has_escalation then
    if 2 < d.admin_to_criminal then 9
    else if 0 < d.admin_to_criminal then 7
    else 5
  else
    if 5 < d.admin_count then 4
    else 2

/-- `RiskCalculator.calculate_risk_score` (backend copy); weights and
pattern risks come from `RISK_WEIGHTS` / `PATTERN_RISKS` constants. -/
def calculate_risk_score (d : PersonData) : ℚ × RiskComponents :=
  let comps : RiskComponents :=
    { pattern := lookupQ PATTERN_RISKS d.pattern_type 0.5 * 10 * 0.25
      history := calculate_history_score d * 0.20
      time := calculate_time_score d * 0.15
      age := calculate_age_score d * 0.10
      social := calculate_social_score d * 0.15
      escalation := calculate_escalation_score d * 0.15 }
  (pyMaxQ 0 (pyMinQ 10 comps.total), comps)

/-- `RiskCalculator.get_risk_level` (backend copy). -/
def get_risk_level (risk_score : ℚ) : String × String :=
  if 7 ≤ risk_score then ("🔴 Критический", "Требует немедленного вмешательства")
  else if 5 ≤ risk_score then ("🟡 Высокий", "Усиленный контроль и мониторинг")
  else if 3 ≤ risk_score then ("🟠 Средний", "Стандартный контроль")
  else ("🟢 Низкий", "Минимальный контроль")

/-- `RiskCalculator.calculate_crime_probability` (backend copy);
base probabilities come from `PREVENTION_RATES`, expected days from
`CRIME_TIME_WINDOWS`. -/
def calculate_crime_probability (d : PersonData) (crime_type : String)
    (days_ahead : ℤ) : ℚ :=
  let base_prob := lookupQ PREVENTION_RATES crime_type 50.0
  let risk_score := (calculate_risk_score d).1
  let risk_modifier := risk_score / 10
  let expected_days := lookupQ CRIME_TIME_WINDOWS crime_type 140
  let time_modifier : ℚ :=
    if (days_ahead : ℚ) < expected_days * 0.5 then 0.6
    else if (days_ahead : ℚ) < expected_days then 0.8
    else if (days_ahead : ℚ) < expected_days * 1.5 then 1.0
    else 0.7
  let pattern := d.pattern_type
  let pattern_modifier : ℚ :=
    if pattern = "chronic_criminal" ∧ (crime_type = "Кража" ∨ crime_type = "Грабеж") then 1.3
    else if pattern = "escalating" ∧ (crime_type = "Грабеж" ∨ crime_type = "Разбой") then 1.2
    else if pattern = "mixed_unstable" then 1.1
    else 1.0
  pyMaxQ 5 (pyMinQ 95 (base_prob * risk_modifier * time_modifier * pattern_modifier))

/-- `CrimeForecaster._get_age_modifier` (backend copy). -/
def get_age_modifier (d : PersonData) : ℚ :=
  if d.current_age < 25 then 0.8
  else if d.current_age < 35 then 0.9
  else if d.current_age < 45 then 1.1
  else 1.3

/-- `CrimeForecaster._get_pattern_modifier` (backend copy). -/
def get_pattern_modifier (d : PersonData) (crime_type : String) : ℚ :=
  let pattern := d.pattern_type
  let base :=
    lookupQ [("mixed_unstable", 0.9), ("chronic_criminal", 0.7), ("escalating", 0.6),
             ("deescalating", 1.3), ("single", 1.5), ("unknown", 1.0)] pattern 1.0
  if pattern = "chronic_criminal" ∧ (crime_type = "Кража" ∨ crime_type = "Грабеж") then
    base * 0.9
  else if pattern = "escalating" ∧ (crime_type = "Разбой" ∨ crime_type = "Убийство") then
    base * 0.8
  else base

/-- `CrimeForecaster._get_social_modifier` (backend copy). -/
def get_social_modifier (d : PersonData) : ℚ :=
  let m : ℚ := 1.0
  let m := if d.has_property then m else m * 0.85
  let m := if d.has_job then m else m * 0.9
  let m := if d.substance_abuse then m * 0.8 else m
  m

/-- `CrimeForecaster._calculate_confidence` (backend copy). -/
def calculate_confidence (d : PersonData) : String :=
  let factors : ℕ :=
    (if 5 < d.total_cases then 1 else 0) +
    (if d.pattern_type ≠ "unknown" then 1 else 0) +
    (if d.has_escalation then 1 else 0)
  if 3 ≤ factors then "Высокая"
  else if 2 ≤ factors then "Средняя"
  else "Низкая"

/-- `CrimeForecaster._get_timeline_risk_level` (backend copy). -/
def get_timeline_risk_level (days : ℤ) : String :=
  if days < 60 then "🔴 Критический период"
  else if days < 120 then "🟡 Высокий риск"
  else if days < 180 then "🟠 Средний риск"
  else "🟢 Низкий риск"

/-- `CrimeForecaster._calculate_single_forecast` (backend copy). -/
def calculate_single_forecast (d : PersonData) (crime_type : String)
    (base_days : ℤ) : Forecast :=
  let age_modifier := get_age_modifier d
  let pattern_modifier := get_pattern_modifier d crime_type
  let social_modifier := get_social_modifier d
  let forecast_days :=
    pyInt ((base_days : ℚ) * age_modifier * pattern_modifier * social_modifier)
  let forecast_days := pyMaxI 30 (pyMinI 365 forecast_days)
  let ci_lower := pyInt ((forecast_days : ℚ) * 0.7)
  let ci_upper := pyInt ((forecast_days : ℚ) * 1.4)
  let probability := calculate_crime_probability d crime_type forecast_days
  { crime_type := crime_type
    days := forecast_days
    probability := probability
    ci_lower := ci_lower
    ci_upper := ci_upper
    confidence := calculate_confidence d
    risk_level := get_timeline_risk_level forecast_days }

/-- `CrimeForecaster.forecast_crime_timeline` (backend copy). -/
def forecast_crime_timeline (d : PersonData) : List (String × Forecast) :=
  let forecasts := base_windows.map fun p => (p.1, calculate_single_forecast d p.1 p.2)
  List.insertionSort forecastLE forecasts

end Backend

/-! ### Bounds of the six sub-scores (used for the component range analysis) -/

theorem pattern_risk_bounds (p : String) :
    0.3 ≤ lookupQ Utils.pattern_risks p 0.5 ∧ lookupQ Utils.pattern_risks p 0.5 ≤ 0.9 := by
  simp only [Utils.pattern_risks, lookupQ]
  split_ifs <;> norm_num

theorem history_score_bounds (d : PersonData) :
    0 ≤ Utils.calculate_history_score d ∧ Utils.calculate_history_score d ≤ 10 := by
  unfold Utils.calculate_history_score
  dsimp only
  simp only [pyMinQ_eq_min]
  split_ifs <;> constructor <;>
    first
      | exact min_le_left _ _
      | (refine le_min (by norm_num) ?_; positivity)
      | norm_num

theorem time_score_bounds (d : PersonData) :
    2 ≤ Utils.calculate_time_score d ∧ Utils.calculate_time_score d ≤ 10 := by
  unfold Utils.calculate_time_score
  dsimp only
  simp only [pyMinQ_eq_min]
  split_ifs <;> constructor <;>
    first
      | norm_num
      | exact le_min (by norm_num) (by norm_num)
      | exact min_le_left _ _

theorem age_score_bounds (d : PersonData) :
    2 ≤ Utils.calculate_age_score d ∧ Utils.calculate_age_score d ≤ 10 := by
  unfold Utils.calculate_age_score
  dsimp only
  simp only [pyMinQ_eq_min]
  split_ifs <;> constructor <;>
    first
      | norm_num
      | exact le_min (by norm_num) (by norm_num)
      | exact min_le_left _ _

theorem social_score_bounds (d : PersonData) :
    0 ≤ Utils.calculate_social_score d ∧ Utils.calculate_social_score d ≤ 9 := by
  unfold Utils.calculate_social_score
  dsimp only
  simp only [pyMinQ_eq_min, pyMaxQ_eq_max]
  cases d.has_property <;> cases d.has_job <;> cases d.has_family <;>
    cases d.substance_abuse <;> norm_num

theorem escalation_score_bounds (d : PersonData) :
    2 ≤ Utils.calculate_escalation_score d ∧ Utils.calculate_escalation_score d ≤ 9 := by
  unfold Utils.calculate_escalation_score
  split_ifs <;> norm_num

/-! ### Concrete records used in examples, witnesses and counterexamples -/

/-- The worked example record of the spec (§8). -/
def exampleRecord : PersonData :=
  ⟨"mixed_unstable", 5, 2, 3, 60, 1.5, 28, some 21,
   false, true, false, false, false, 1⟩

/-- C2: on the documented example record, `calculate_risk_score` returns
risk score 5.760 (within 1e-3; in exact arithmetic it is exactly 5.76) and
`get_risk_level` maps that score to the "High" level with its recommendation. -/
theorem C2_example_record_score_and_level :
    |(Utils.calculate_risk_score exampleRecord).1 - 5.760| ≤ 1/1000 ∧
    Utils.get_risk_level (Utils.calculate_risk_score exampleRecord).1 =
      ("🟡 Высокий", "Усиленный контроль и мониторинг") := by
  have h : (Utils.calculate_risk_score exampleRecord).1 = 5.76 := by
    with_unfolding_all rfl
  constructor
  · rw [h]; norm_num
  · rw [h]; with_unfolding_all rfl

/-- C3: for every record with non-negative numeric fields, the returned
risk score equals the sum of the six returned weighted components clamped
to [0,10] (exactly, in rational arithmetic), hence lies in [0,10]. -/
theorem C3_risk_score_is_clamped_component_sum (d : PersonData)
    (h : 0 ≤ d.recidivism_rate) :
    (Utils.calculate_risk_score d).1 =
      max 0 (min 10 (Utils.calculate_risk_score d).2.total) ∧
    0 ≤ (Utils.calculate_risk_score d).1 ∧
    (Utils.calculate_risk_score d).1 ≤ 10 := by
  refine ⟨?_, ?_, ?_⟩
  · simp only [Utils.calculate_risk_score, pyMaxQ_eq_max, pyMinQ_eq_min]
  · simp only [Utils.calculate_risk_score, pyMaxQ_eq_max, pyMinQ_eq_min]
    exact le_max_left _ _
  · simp only [Utils.calculate_risk_score, pyMaxQ_eq_max, pyMinQ_eq_min]
    exact max_le (by norm_num) (min_le_left _ _)

/-- Witness for C3 at the example record. -/
theorem C3_witness :
    0 ≤ exampleRecord.recidivism_rate ∧
    ((Utils.calculate_risk_score exampleRecord).1 =
        max 0 (min 10 (Utils.calculate_risk_score exampleRecord).2.total) ∧
      0 ≤ (Utils.calculate_risk_score exampleRecord).1 ∧
      (Utils.calculate_risk_score exampleRecord).1 ≤ 10) :=
  ⟨by norm_num [exampleRecord],
   C3_risk_score_is_clamped_component_sum exampleRecord (by norm_num [exampleRecord])⟩

/-- C10 (implicit): for every record, the unclamped sum of the six weighted
components lies in [1.55, 9.45] — with the pattern, time, age and escalation
components bounded below by 0.75, 0.3, 0.2 and 0.3 — so the final clamp to
[0,10] never changes the value and the returned risk score is never 0 and
never reaches 10. -/
theorem C10_component_sum_never_clamped (d : PersonData) :
    0.75 ≤ (Utils.calculate_risk_score d).2.pattern ∧
    0.3 ≤ (Utils.calculate_risk_score d).2.time ∧
    0.2 ≤ (Utils.calculate_risk_score d).2.age ∧
    0.3 ≤ (Utils.calculate_risk_score d).2.escalation ∧
    1.55 ≤ (Utils.calculate_risk_score d).2.total ∧
    (Utils.calculate_risk_score d).2.total ≤ 9.45 ∧
    (Utils.calculate_risk_score d).1 = (Utils.calculate_risk_score d).2.total ∧
    (Utils.calculate_risk_score d).1 ≠ 0 ∧
    (Utils.calculate_risk_score d).1 < 10 := by
  obtain ⟨hp1, hp2⟩ := pattern_risk_bounds d.pattern_type
  obtain ⟨hh1, hh2⟩ := history_score_bounds d
  obtain ⟨ht1, ht2⟩ := time_score_bounds d
  obtain ⟨ha1, ha2⟩ := age_score_bounds d
  obtain ⟨hs1, hs2⟩ := social_score_bounds d
  obtain ⟨he1, he2⟩ := escalation_score_bounds d
  simp only [Utils.calculate_risk_score, RiskComponents.total, pyMaxQ_eq_max,
    pyMinQ_eq_min]
  have hlo : (1.55 : ℚ) ≤
      lookupQ Utils.pattern_risks d.pattern_type 0.5 * 10 * 0.25 +
        Utils.calculate_history_score d * 0.20 +
        Utils.calculate_time_score d * 0.15 +
        Utils.calculate_age_score d * 0.10 +
        Utils.calculate_social_score d * 0.15 +
        Utils.calculate_escalation_score d * 0.15 := by linarith
  have hhi : lookupQ Utils.pattern_risks d.pattern_type 0.5 * 10 * 0.25 +
        Utils.calculate_history_score d * 0.20 +
        Utils.calculate_time_score d * 0.15 +
        Utils.calculate_age_score d * 0.10 +
        Utils.calculate_social_score d * 0.15 +
        Utils.calculate_escalation_score d * 0.15 ≤ (9.45 : ℚ) := by linarith
  have hmin : min (10 : ℚ)
      (lookupQ Utils.pattern_risks d.pattern_type 0.5 * 10 * 0.25 +
        Utils.calculate_history_score d * 0.20 +
        Utils.calculate_time_score d * 0.15 +
        Utils.calculate_age_score d * 0.10 +
        Utils.calculate_social_score d * 0.15 +
        Utils.calculate_escalation_score d * 0.15) =
      lookupQ Utils.pattern_risks d.pattern_type 0.5 * 10 * 0.25 +
        Utils.calculate_history_score d * 0.20 +
        Utils.calculate_time_score d * 0.15 +
        Utils.calculate_age_score d * 0.10 +
        Utils.calculate_social_score d * 0.15 +
        Utils.calculate_escalation_score d * 0.15 :=
    min_eq_right (by linarith)
  have hmax : max (0 : ℚ)
      (lookupQ Utils.pattern_risks d.pattern_type 0.5 * 10 * 0.25 +
        Utils.calculate_history_score d * 0.20 +
        Utils.calculate_time_score d * 0.15 +
        Utils.calculate_age_score d * 0.10 +
        Utils.calculate_social_score d * 0.15 +
        Utils.calculate_escalation_score d * 0.15) =
      lookupQ Utils.pattern_risks d.pattern_type 0.5 * 10 * 0.25 +
        Utils.calculate_history_score d * 0.20 +
        Utils.calculate_time_score d * 0.15 +
        Utils.calculate_age_score d * 0.10 +
        Utils.calculate_social_score d * 0.15 +
        Utils.calculate_escalation_score d * 0.15 :=
    max_eq_right (by linarith)
  refine ⟨by linarith, by linarith, by linarith, by linarith, hlo, hhi, ?_, ?_, ?_⟩
  · rw [hmin, hmax]
  · rw [hmin, hmax]; exact fun hc => by rw [hc] at hlo; norm_num at hlo
  · rw [hmin, hmax]; linarith

/-! ### C4: totality — a division-checked evaluation never fails -/

/-- Division that signals Python's `ZeroDivisionError` instead of
defaulting: `none` exactly when the denominator is zero. -/
def qdivE (a b : ℚ) : Option ℚ := if b = 0 then none else some (a / b)

/-- `_calculate_history_score` with the single division checked: the only
fallible arithmetic step of the whole scorer, in the Option monad. -/
def calculate_history_scoreE (d : PersonData) : Option ℚ :=
  if d.total_cases = 0 then some 0
  else
    let base : ℚ :=
      if d.total_cases ≤ 2 then 2
      else if d.total_cases ≤ 5 then 4
      else if d.total_cases ≤ 10 then 6
      else 8
    if 0 < d.criminal_count then
      (qdivE (d.criminal_count : ℚ) (d.total_cases : ℚ)).map
        fun r => pyMinQ 10 (base + r * 2)
    else some (pyMinQ 10 base)

/-- `calculate_risk_score` with the checked history sub-score threaded
through; the other five sub-scores are step functions with else branches
and are total by construction. -/
def calculate_risk_scoreE (d : PersonData) : Option (ℚ × RiskComponents) :=
  (calculate_history_scoreE d).map fun hist =>
    let comps : RiskComponents :=
      { pattern := lookupQ Utils.pattern_risks d.pattern_type 0.5 * 10 * 0.25
        history := hist * 0.20
        time := Utils.calculate_time_score d * 0.15
        age := Utils.calculate_age_score d * 0.10
        social := Utils.calculate_social_score d * 0.15
        escalation := Utils.calculate_escalation_score d * 0.15 }
    (pyMaxQ 0 (pyMinQ 10 comps.total), comps)

/-- C4: the scorer is total — the division-checked evaluation never fails
and agrees with the total function; in particular the division is
unreachable when `total_cases == 0`, where the history score is 0. -/
theorem C4_scorer_total_and_division_guarded (d : PersonData) :
    calculate_history_scoreE d = some (Utils.calculate_history_score d) ∧
    calculate_risk_scoreE d = some (Utils.calculate_risk_score d) ∧
    (d.total_cases = 0 → Utils.calculate_history_score d = 0) := by
  have hhist : calculate_history_scoreE d = some (Utils.calculate_history_score d) := by
    unfold calculate_history_scoreE Utils.calculate_history_score
    by_cases h0 : d.total_cases = 0
    · simp [h0]
    · have hden : ((d.total_cases : ℚ)) ≠ 0 := by
        exact_mod_cast h0
      by_cases hc : 0 < d.criminal_count
      · simp only [if_neg h0, if_pos hc, qdivE, if_neg hden]
        rfl
      · simp only [if_neg h0, if_neg hc]
  refine ⟨hhist, ?_, ?_⟩
  · unfold calculate_risk_scoreE Utils.calculate_risk_score
    rw [hhist]
    rfl
  · intro h0
    unfold Utils.calculate_history_score
    simp [h0]

/-- Record with an empty case history (`total_cases = 0`). -/
def recZero : PersonData :=
  ⟨"unknown", 0, 0, 0, 365, 0, 35, none, false, false, false, false, false, 0⟩

/-- Witness for C4's guard clause at a record with `total_cases = 0`. -/
theorem C4_witness :
    calculate_history_scoreE recZero = some (Utils.calculate_history_score recZero) ∧
    calculate_risk_scoreE recZero = some (Utils.calculate_risk_score recZero) ∧
    recZero.total_cases = 0 ∧ Utils.calculate_history_score recZero = 0 :=
  ⟨(C4_scorer_total_and_division_guarded recZero).1,
   (C4_scorer_total_and_division_guarded recZero).2.1,
   rfl,
   (C4_scorer_total_and_division_guarded recZero).2.2 rfl⟩

/-! ### C1: parity of the two copies of the scoring/forecasting logic -/

theorem base_prob_parity (ct : String) :
    lookupQ Utils.base_probabilities ct 50.0 = lookupQ Backend.PREVENTION_RATES ct 50.0 := by
  simp only [Utils.base_probabilities, Backend.PREVENTION_RATES, lookupQ]
  split_ifs <;> simp_all

theorem time_windows_parity (ct : String) :
    lookupQ Utils.time_windows ct 140 = lookupQ Backend.CRIME_TIME_WINDOWS ct 140 := by
  simp only [Utils.time_windows, Backend.CRIME_TIME_WINDOWS, lookupQ]
  split_ifs <;> simp_all

theorem risk_score_parity (d : PersonData) :
    Utils.calculate_risk_score d = Backend.calculate_risk_score d := rfl

theorem crime_probability_parity (d : PersonData) (ct : String) (days_ahead : ℤ) :
    Utils.calculate_crime_probability d ct days_ahead =
      Backend.calculate_crime_probability d ct days_ahead := by
  unfold Utils.calculate_crime_probability Backend.calculate_crime_probability
  rw [base_prob_parity, time_windows_parity, risk_score_parity]

theorem single_forecast_parity (d : PersonData) (ct : String) (b : ℤ) :
    Utils.calculate_single_forecast d ct b = Backend.calculate_single_forecast d ct b := by
  unfold Utils.calculate_single_forecast Backend.calculate_single_forecast
  simp only [crime_probability_parity]
  rfl

theorem forecast_timeline_parity (d : PersonData) :
    Utils.forecast_crime_timeline d = Backend.forecast_crime_timeline d := by
  unfold Utils.forecast_crime_timeline Backend.forecast_crime_timeline
  simp only [single_forecast_parity]
  rfl

/-- C1: for every record, the two copies of the scoring/forecasting logic
(`utils/risk_calculator.py` and the port in
`backend/app/services/risk_service.py`) return identical results: equal
(risk_score, components) pairs, equal (level, recommendation) pairs,
equal crime probabilities, and field-by-field equal forecast timelines
(the wall-clock `date` field is outside the model). -/
theorem C1_dual_copy_parity (d : PersonData) :
    Utils.calculate_risk_score d = Backend.calculate_risk_score d ∧
    (∀ s : ℚ, Utils.get_risk_level s = Backend.get_risk_level s) ∧
    (∀ ct : String, ∀ days_ahead : ℤ,
      Utils.calculate_crime_probability d ct days_ahead =
        Backend.calculate_crime_probability d ct days_ahead) ∧
    Utils.forecast_crime_timeline d = Backend.forecast_crime_timeline d :=
  ⟨risk_score_parity d, fun _ => rfl,
   fun ct da => crime_probability_parity d ct da, forecast_timeline_parity d⟩

/-! ### C5/C6: the days and confidence-interval formulas use truncation -/

/-- Record: 50-year-old, unknown pattern, has property and job, no
substance abuse — all three forecast modifiers except age are 1.0. -/
def recRound : PersonData :=
  ⟨"unknown", 0, 0, 0, 365, 0, 50, none, true, true, false, false, false, 0⟩

/-- C5 counterexample: for the murder window (base 143 days) and
`recRound`, the product is 143·1.3 = 185.9; the code truncates to 185
while the claimed rounding formula gives 186. -/
theorem C5_counterexample :
    (Utils.calculate_single_forecast recRound "Убийство" 143).days = 185 ∧
    max 30 (min 365 (round ((143 : ℚ) * Utils.get_age_modifier recRound *
        Utils.get_pattern_modifier recRound "Убийство" *
        Utils.get_social_modifier recRound))) = 186 ∧
    (Utils.calculate_single_forecast recRound "Убийство" 143).days ≠
      max 30 (min 365 (round ((143 : ℚ) * Utils.get_age_modifier recRound *
        Utils.get_pattern_modifier recRound "Убийство" *
        Utils.get_social_modifier recRound))) := by
  have hprod : (143 : ℚ) * Utils.get_age_modifier recRound *
      Utils.get_pattern_modifier recRound "Убийство" *
      Utils.get_social_modifier recRound = 185.9 := by
    with_unfolding_all rfl
  have hdays : (Utils.calculate_single_forecast recRound "Убийство" 143).days = 185 := by
    with_unfolding_all rfl
  have hround : max 30 (min 365 (round ((143 : ℚ) * Utils.get_age_modifier recRound *
      Utils.get_pattern_modifier recRound "Убийство" *
      Utils.get_social_modifier recRound))) = 186 := by
    rw [hprod]
    norm_num [round_eq]
  refine ⟨hdays, hround, ?_⟩
  rw [hdays, hround]
  decide

/-- C5 (amended): the `days` field equals
clamp(trunc(B · age_modifier · pattern_modifier · social_modifier), 30, 365),
where trunc is Python `int()` truncation toward zero — not rounding. -/
theorem C5_days_formula (d : PersonData) (ct : String) (b : ℤ) :
    (Utils.calculate_single_forecast d ct b).days =
      max 30 (min 365 (pyInt ((b : ℚ) * Utils.get_age_modifier d *
        Utils.get_pattern_modifier d ct * Utils.get_social_modifier d))) := by
  unfold Utils.calculate_single_forecast
  simp only [pyMaxI_eq_max, pyMinI_eq_min]

/-- Record: 20-year-old, mixed_unstable pattern, has property and job, no
substance abuse — theft forecast lands on 105 days. -/
def recCI : PersonData :=
  ⟨"mixed_unstable", 0, 0, 0, 365, 0, 20, none, true, true, false, false, false, 0⟩

/-- C6 counterexample: for the theft window (base 146 days) and `recCI`,
days = 105 and 105·0.7 = 73.5; the code truncates the lower confidence
bound to 73 while the claimed rounding formula gives 74. -/
theorem C6_counterexample :
    (Utils.calculate_single_forecast recCI "Кража" 146).days = 105 ∧
    (Utils.calculate_single_forecast recCI "Кража" 146).ci_lower = 73 ∧
    round (((Utils.calculate_single_forecast recCI "Кража" 146).days : ℚ) * 0.7) = 74 ∧
    (Utils.calculate_single_forecast recCI "Кража" 146).ci_lower ≠
      round (((Utils.calculate_single_forecast recCI "Кража" 146).days : ℚ) * 0.7) := by
  have hdays : (Utils.calculate_single_forecast recCI "Кража" 146).days = 105 := by
    with_unfolding_all rfl
  have hlow : (Utils.calculate_single_forecast recCI "Кража" 146).ci_lower = 73 := by
    with_unfolding_all rfl
  have hround : round (((Utils.calculate_single_forecast recCI "Кража" 146).days : ℚ) * 0.7) = 74 := by
    rw [hdays]
    norm_num [round_eq]
  refine ⟨hdays, hlow, hround, ?_⟩
  rw [hlow, hround]
  decide

/-- C6 (amended): the confidence interval equals
(trunc(days·0.7), trunc(days·1.4)) — Python `int()` truncation, not
rounding — where `days` is the same entry's days value. -/
theorem C6_ci_formula (d : PersonData) (ct : String) (b : ℤ) :
    (Utils.calculate_single_forecast d ct b).ci_lower =
      pyInt (((Utils.calculate_single_forecast d ct b).days : ℚ) * 0.7) ∧
    (Utils.calculate_single_forecast d ct b).ci_upper =
      pyInt (((Utils.calculate_single_forecast d ct b).days : ℚ) * 1.4) := by
  unfold Utils.calculate_single_forecast
  exact ⟨rfl, rfl⟩

/-! ### C7/C8/C9: forecast-map properties -/

/-- Time modifier as the claim words it: 0.6 / 0.8 / 1.0 / 0.7 according to
whether `days_ahead` is below 50%, 100%, 150% of the crime's base time
window, or beyond. -/
def specTimeModifier (ct : String) (days_ahead : ℤ) : ℚ :=
  let w := lookupQ Utils.time_windows ct 140
  if (days_ahead : ℚ) < w * 0.5 then 0.6
  else if (days_ahead : ℚ) < w then 0.8
  else if (days_ahead : ℚ) < w * 1.5 then 1.0
  else 0.7

/-- Pattern modifier as the claim words it: 1.3 for chronic_criminal with
theft/robbery, 1.2 for escalating with robbery/armed robbery, 1.1 for
mixed_unstable, else 1.0. -/
def specPatternModifier (pattern ct : String) : ℚ :=
  if pattern = "chronic_criminal" ∧ (ct = "Кража" ∨ ct = "Грабеж") then 1.3
  else if pattern = "escalating" ∧ (ct = "Грабеж" ∨ ct = "Разбой") then 1.2
  else if pattern = "mixed_unstable" then 1.1
  else 1.0

theorem crime_probability_bounds (d : PersonData) (ct : String) (da : ℤ) :
    5 ≤ Utils.calculate_crime_probability d ct da ∧
    Utils.calculate_crime_probability d ct da ≤ 95 := by
  unfold Utils.calculate_crime_probability
  dsimp only
  rw [pyMaxQ_eq_max, pyMinQ_eq_min]
  exact ⟨le_max_left _ _, max_le (by norm_num) (min_le_left _ _)⟩

theorem single_forecast_probability (d : PersonData) (ct : String) (b : ℤ) :
    (Utils.calculate_single_forecast d ct b).probability =
      Utils.calculate_crime_probability d ct
        (Utils.calculate_single_forecast d ct b).days := by
  unfold Utils.calculate_single_forecast
  rfl

/-- C7: `calculate_crime_probability` equals the clamped product
base_rate · (risk_score/10) · time_modifier · pattern_modifier, so it and
every forecast entry's probability lie in [5, 95]. -/
theorem C7_probability_formula_and_bounds (d : PersonData) (ct : String)
    (days_ahead : ℤ) :
    Utils.calculate_crime_probability d ct days_ahead =
      max 5 (min 95 (lookupQ Utils.base_probabilities ct 50.0 *
        ((Utils.calculate_risk_score d).1 / 10) *
        specTimeModifier ct days_ahead *
        specPatternModifier d.pattern_type ct)) ∧
    5 ≤ Utils.calculate_crime_probability d ct days_ahead ∧
    Utils.calculate_crime_probability d ct days_ahead ≤ 95 ∧
    (Utils.forecast_crime_timeline d).Forall
      (fun x => 5 ≤ x.2.probability ∧ x.2.probability ≤ 95) := by
  obtain ⟨hb1, hb2⟩ := crime_probability_bounds d ct days_ahead
  refine ⟨?_, hb1, hb2, ?_⟩
  · unfold Utils.calculate_crime_probability specTimeModifier specPatternModifier
    rw [pyMaxQ_eq_max, pyMinQ_eq_min]
  · rw [List.forall_iff_forall_mem]
    intro x hx
    unfold Utils.forecast_crime_timeline at hx
    simp only [List.mem_insertionSort, List.mem_map] at hx
    obtain ⟨p, _, rfl⟩ := hx
    rw [single_forecast_probability]
    exact crime_probability_bounds d p.1 _

/-- C8: the forecast map has exactly the eight crime-type keys of
`CRIME_TIME_WINDOWS`, and its entries are in ascending order of `days`. -/
theorem C8_forecast_keys_and_order (d : PersonData) :
    ((Utils.forecast_crime_timeline d).map Prod.fst).Perm
      ["Мошенничество", "Кража", "Убийство", "Вымогательство", "Грабеж",
       "Разбой", "Изнасилование", "Хулиганство"] ∧
    ((Utils.forecast_crime_timeline d).map fun x => x.2.days).Sorted (· ≤ ·) := by
  constructor
  · unfold Utils.forecast_crime_timeline
    have h1 :
        (List.insertionSort forecastLE
          (Utils.base_windows.map fun p =>
            (p.1, Utils.calculate_single_forecast d p.1 p.2))).Perm
          (Utils.base_windows.map fun p =>
            (p.1, Utils.calculate_single_forecast d p.1 p.2)) :=
      List.perm_insertionSort _ _
    have h2 := h1.map Prod.fst
    have h3 : ((Utils.base_windows.map fun p =>
        (p.1, Utils.calculate_single_forecast d p.1 p.2)).map Prod.fst) =
        ["Мошенничество", "Кража", "Убийство", "Вымогательство", "Грабеж",
         "Разбой", "Изнасилование", "Хулиганство"] := by
      with_unfolding_all rfl
    exact h3 ▸ h2
  · have hs := List.sorted_insertionSort forecastLE
      (Utils.base_windows.map fun p => (p.1, Utils.calculate_single_forecast d p.1 p.2))
    unfold Utils.forecast_crime_timeline
    rw [List.Sorted, List.pairwise_map]
    exact hs

theorem forecast_days_bounds (d : PersonData) (ct : String) (b : ℤ) :
    30 ≤ (Utils.calculate_single_forecast d ct b).days ∧
    (Utils.calculate_single_forecast d ct b).days ≤ 365 := by
  unfold Utils.calculate_single_forecast
  dsimp only
  rw [pyMaxI_eq_max, pyMinI_eq_min]
  exact ⟨le_max_left _ _, max_le (by norm_num) (min_le_left _ _)⟩

theorem single_forecast_ci (d : PersonData) (ct : String) (b : ℤ) :
    (Utils.calculate_single_forecast d ct b).ci_lower =
      pyInt (((Utils.calculate_single_forecast d ct b).days : ℚ) * 0.7) ∧
    (Utils.calculate_single_forecast d ct b).ci_upper =
      pyInt (((Utils.calculate_single_forecast d ct b).days : ℚ) * 1.4) := by
  unfold Utils.calculate_single_forecast
  exact ⟨rfl, rfl⟩

theorem forecast_ci_strict (d : PersonData) (ct : String) (b : ℤ) :
    (Utils.calculate_single_forecast d ct b).ci_lower <
      (Utils.calculate_single_forecast d ct b).days ∧
    (Utils.calculate_single_forecast d ct b).days <
      (Utils.calculate_single_forecast d ct b).ci_upper := by
  obtain ⟨h30, _h365⟩ := forecast_days_bounds d ct b
  obtain ⟨hlow, hup⟩ := single_forecast_ci d ct b
  have hD : (30 : ℚ) ≤ ((Utils.calculate_single_forecast d ct b).days : ℚ) := by
    exact_mod_cast h30
  constructor
  · rw [hlow, pyInt_eq_floor (by linarith)]
    rw [Int.floor_lt]
    push_cast
    linarith
  · rw [hup, pyInt_eq_floor (by linarith)]
    have hstep : (Utils.calculate_single_forecast d ct b).days + 1 ≤
        ⌊((Utils.calculate_single_forecast d ct b).days : ℚ) * 1.4⌋ := by
      rw [Int.le_floor]
      push_cast
      linarith
    linarith

/-- C9: in every forecast entry the days value lies inside — in fact
strictly inside — the confidence interval: ci_lower < days < ci_upper. -/
theorem C9_days_strictly_inside_ci (d : PersonData) :
    (Utils.forecast_crime_timeline d).Forall
      (fun x => (x.2.ci_lower ≤ x.2.days ∧ x.2.days ≤ x.2.ci_upper) ∧
        x.2.ci_lower < x.2.days ∧ x.2.days < x.2.ci_upper) := by
  rw [List.forall_iff_forall_mem]
  intro x hx
  unfold Utils.forecast_crime_timeline at hx
  simp only [List.mem_insertionSort, List.mem_map] at hx
  obtain ⟨p, _, rfl⟩ := hx
  obtain ⟨h1, h2⟩ := forecast_ci_strict d p.1 p.2
  exact ⟨⟨h1.le, h2.le⟩, h1, h2⟩
